import Mathlib

/-!
Verification development for the DiagnoAI frontend workflow core.

The definitions below are a shallow embedding of the workflow controllers
in `src/frontend/src/pages/LabAnalysis.tsx` and
`src/frontend/src/pages/XRayAnalysis.tsx`, the result shapes in
`types.ts`, the rendering selectors of `AnalysisResults.tsx`, the
row-edit handler of `ExtractedDataPreview.tsx`, and the shared
`Button.tsx` component.

Modelling conventions:
* JavaScript numbers are modelled as `Rat`, with a separate `JsNum`
  variant for `NaN` where the code can produce it (`parseFloat`).
* React `useState` slots become fields of an explicit state record;
  an async handler becomes a function from the pre-call state and the
  outcome of the awaited Gateway call to the post-call state, composing
  the `setState` calls in source order.
* Files are identified by their name (`String`); object URLs by the
  `String` handle `URL.createObjectURL` returns.  A handler that touches
  object URLs additionally returns the list of URL operations its body
  performs, so resource release can be stated.
-/

/-! ## Data model (types.ts) -/

/-- A JavaScript number: either an ordinary (here: rational) value or NaN. -/
inductive JsNum
  | nan
  | num (q : Rat)
deriving DecidableEq

/-- A `string | number` cell value, as held by the extracted-data rows. -/
inductive JsValue
  | str (s : String)
  | numV (n : JsNum)
deriving DecidableEq

/-- One row of `OCRResult.extracted_data`.  The source types it as
`Record<string, string | number>`; the keys actually read and written by
`ExtractedDataPreview` are `parameter_name`, `result_value`, `unit` and
`reference_range`, which we model as fields. -/
structure ExtractedRow where
  parameter_name : String
  result_value : JsValue
  unit : String
  reference_range : String
deriving DecidableEq

/-- `OCRResult` from types.ts. -/
structure OCRResult where
  extracted_data : List ExtractedRow
  confidence : Rat
  ocr_text : String
  status : String
deriving DecidableEq

/-- `LabParameter` from types.ts (`status` is one of the four tag strings). -/
structure LabParameter where
  name : String
  value : Rat
  unit : Option String := none
  reference_range : String
  status : String
  percentage : Rat
deriving DecidableEq

/-- `LabResult` from types.ts. -/
structure LabResult where
  assessment : String
  confidence : Rat
  parameters : List LabParameter
  interpretation : Option String := none
  recommendations : Option (List String) := none
deriving DecidableEq

/-- `XRayFinding` from types.ts. -/
structure XRayFinding where
  condition : String
  score : Rat
  severity : String
deriving DecidableEq

/-- `XAIDetail` from types.ts. -/
structure XAIDetail where
  radiological_finding : String
  visual_pattern : String
  visual_evidence : String
  clinical_context : String
  recommendation : String
  severity : String
  region : String
  confidence_pct : Rat
deriving DecidableEq

/-- `XRayResult.model_info` from types.ts. -/
structure ModelInfo where
  name : String
  trained_on : String
  pathologies_count : Nat
  xai_method : String
deriving DecidableEq

/-- `XRayResult` from types.ts.  `probabilities` is a `Record<string, number>`,
modelled as an association list; `heatmap_b64` and the backward-compat
`heatmap_base64` are both optional. -/
structure XRayResult where
  prediction : String
  confidence : Rat
  probabilities : List (String × Rat)
  heatmap_b64 : Option String := none
  heatmap_base64 : Option String := none
  region : Option String := none
  findings : Option (List XRayFinding) := none
  xai_details : Option (List (String × XAIDetail)) := none
  explanation : Option String := none
  key_findings : Option (List String) := none
  model_info : Option ModelInfo := none
deriving DecidableEq

/-! ## Lab workflow controller (LabAnalysis.tsx) -/

/-- The `inputMethod` state slot (the manual-entry or file-upload path). -/
inductive InputMethod
  | manual
  | upload
deriving DecidableEq

/-- The `useState` slots of the `LabAnalysis` page component. -/
structure LabState where
  step : Nat
  selectedType : String
  inputMethod : InputMethod
  file : Option String
  ocrResult : Option OCRResult
  analysisResult : Option LabResult
  isProcessing : Bool
  error : Option String
deriving DecidableEq

/-- The initial lab session state (the `useState` initializers). -/
def labInit : LabState :=
  { step := 1
    selectedType := "cbc"
    inputMethod := InputMethod.manual
    file := none
    ocrResult := none
    analysisResult := none
    isProcessing := false
    error := none }

/-- The message set by the catch branch of `handleManualSubmit`. -/
def labErrorMsgAnalyze : String := "Analysis failed. Please try again."

/-- The message set by the catch branch of `handleFileUpload`. -/
def labErrorMsgUpload : String := "File processing failed. Please try again."

/-- `handleTypeSelect(type)`. -/
def handleTypeSelect (s : LabState) (type : String) : LabState :=
  { s with selectedType := type, error := none }

/-- `handleManualSubmit(values)`: sets busy, clears error, awaits
`analyzeLabManual(selectedType, values)` (outcome passed in), stores the
result and moves to step 3 on success, sets the error message on failure,
and finally clears busy.  `values` does not flow into the state. -/
def handleManualSubmit (s : LabState) (_values : List (String × Rat))
    (outcome : Except Unit LabResult) : LabState :=
  let s1 := { s with isProcessing := true, error := none }
  let s2 :=
    match outcome with
    | Except.ok result => { s1 with analysisResult := some result, step := 3 }
    | Except.error _ => { s1 with error := some labErrorMsgAnalyze }
  { s2 with isProcessing := false }

/-- `handleFileUpload(uploadedFile)`: stores the file, sets busy, clears
error, awaits `uploadLabFile(uploadedFile, selectedType)` (outcome passed
in), stores the OCR result and moves to step 2 on success; on failure sets
the error message and sets the file back to null; finally clears busy. -/
def handleFileUpload (s : LabState) (uploadedFile : String)
    (outcome : Except Unit OCRResult) : LabState :=
  let s1 := { s with file := some uploadedFile, isProcessing := true, error := none }
  let s2 :=
    match outcome with
    | Except.ok result => { s1 with ocrResult := some result, step := 2 }
    | Except.error _ => { s1 with error := some labErrorMsgUpload, file := none }
  { s2 with isProcessing := false }

/-- `handleReviewConfirm(values)` simply delegates to `handleManualSubmit`. -/
def handleReviewConfirm (s : LabState) (values : List (String × Rat))
    (outcome : Except Unit LabResult) : LabState :=
  handleManualSubmit s values outcome

/-- `resetAnalysis` of LabAnalysis.tsx. -/
def resetAnalysisLab (s : LabState) : LabState :=
  { s with step := 1, file := none, ocrResult := none,
           analysisResult := none, error := none }

/-! ## Imaging workflow controller (XRayAnalysis.tsx) -/

/-- A browser object-URL operation performed by a handler body. -/
inductive UrlEffect
  | createObjectURL (file : String)
  | revokeObjectURL (url : String)
deriving DecidableEq

/-- The `useState` slots of the `XRayAnalysis` page component. -/
structure XRayState where
  selectedType : String
  file : Option String
  preview : Option String
  isAnalyzing : Bool
  result : Option XRayResult
  error : Option String
deriving DecidableEq

/-- The initial imaging session state (the `useState` initializers). -/
def xrayInit : XRayState :=
  { selectedType := "chest"
    file := none
    preview := none
    isAnalyzing := false
    result := none
    error := none }

/-- `handleFileSelect(uploadedFile)`: stores the file, derives a preview
via `URL.createObjectURL` (the returned handle is `url`), and clears the
previous result and error.  The body performs exactly one URL operation:
the creation; it contains no `URL.revokeObjectURL` call. -/
def handleFileSelect (s : XRayState) (uploadedFile : String) (url : String) :
    XRayState × List UrlEffect :=
  ({ s with file := some uploadedFile, preview := some url,
            result := none, error := none },
   [UrlEffect.createObjectURL uploadedFile])

/-- `handleAnalyze()`: returns early (no Gateway call) when `file` is null;
otherwise sets busy, clears error, awaits `analyzeXRay(file, selectedType)`
(outcome passed in), stores the result on success or sets the error message
on failure, and finally clears busy.  The second component records whether
the Gateway was invoked. -/
def handleAnalyze (s : XRayState) (outcome : Except Unit XRayResult) :
    XRayState × Bool :=
  match s.file with
  | none => (s, false)
  | some _ =>
    let s1 := { s with isAnalyzing := true, error := none }
    let s2 :=
      match outcome with
      | Except.ok data => { s1 with result := some data }
      | Except.error _ => { s1 with error := some "Analysis failed. Please try again." }
    ({ s2 with isAnalyzing := false }, true)

/-- `resetAnalysis` of XRayAnalysis.tsx: the body calls the four setters
and performs no URL operation (in particular no `URL.revokeObjectURL`). -/
def resetAnalysisX (s : XRayState) : XRayState × List UrlEffect :=
  ({ s with file := none, preview := none, result := none, error := none }, [])

/-- Number of `revokeObjectURL` operations in an effect list. -/
def countRevokes (l : List UrlEffect) : Nat :=
  (l.filter fun e =>
    match e with
    | UrlEffect.revokeObjectURL _ => true
    | _ => false).length

/-! ## Rendering selectors (AnalysisResults.tsx) -/

/-- JavaScript truthiness of an optional string field (absent and the
empty string are falsy). -/
def jsTruthyStr : Option String → Bool
  | none => false
  | some s => !(s == "")

/-- `heatmapSrc`: `result.heatmap_b64 ? data-url : result.heatmap_base64 ?
data-url : null`. -/
def heatmapSrc (r : XRayResult) : Option String :=
  if jsTruthyStr r.heatmap_b64 then
    some ("data:image/png;base64," ++ r.heatmap_b64.getD "")
  else if jsTruthyStr r.heatmap_base64 then
    some ("data:image/png;base64," ++ r.heatmap_base64.getD "")
  else none

/-- Insertion step of a stable descending sort by the numeric component,
modelling `Array.prototype.sort` with comparator `([, a], [, b]) => b - a`. -/
def insertByScoreDesc (x : String × Rat) : List (String × Rat) → List (String × Rat)
  | [] => [x]
  | y :: ys => if x.2 > y.2 then x :: y :: ys else y :: insertByScoreDesc x ys

/-- Stable descending sort by the numeric component. -/
def sortByScoreDesc : List (String × Rat) → List (String × Rat)
  | [] => []
  | x :: xs => insertByScoreDesc x (sortByScoreDesc xs)

/-- `sortedProbs`: `Object.entries(result.probabilities ?? {})` sorted by
score descending, then `slice(0, 8)`.  (`probabilities` is non-optional in
the type, so the `?? {}` default is the identity here.) -/
def sortedProbs (r : XRayResult) : List (String × Rat) :=
  (sortByScoreDesc r.probabilities).take 8

/-- The probability-distribution bar width, `width: prob * 100 %`. -/
def probBarWidthPct (prob : Rat) : Rat := prob * 100

/-- The probability-distribution text label value, `(prob * 100).toFixed(1)`. -/
def probLabelPct (prob : Rat) : Rat := prob * 100

/-- The findings-table bar width, `Math.min(score * 100, 100) %`. -/
def findingBarWidthPct (score : Rat) : Rat := min (score * 100) 100

/-- The findings-table text label value, `(score * 100).toFixed(1)`. -/
def findingLabelPct (score : Rat) : Rat := score * 100

/-! ## Row editing (ExtractedDataPreview.tsx) -/

/-- Digit list to natural number, most significant first. -/
def digitsToNat (l : List Char) : Nat :=
  l.foldl (fun acc c => acc * 10 + (c.toNat - 48)) 0

/-- Core of `parseFloat` after whitespace stripping: optional sign, integer
digits, optional fraction digits.  NaN when no digit is found. -/
def parseFloatCore (l : List Char) : JsNum :=
  let signed : Rat × List Char :=
    match l with
    | '-' :: r => (-1, r)
    | '+' :: r => (1, r)
    | _ => (1, l)
  let intPart := signed.2.takeWhile Char.isDigit
  let rest := signed.2.dropWhile Char.isDigit
  let fracPart :=
    match rest with
    | '.' :: r => r.takeWhile Char.isDigit
    | _ => []
  if intPart.isEmpty && fracPart.isEmpty then JsNum.nan
  else JsNum.num (signed.1 *
    ((digitsToNat intPart : Rat) + (digitsToNat fracPart : Rat) / (10 : Rat) ^ fracPart.length))

/-- Model of JavaScript `parseFloat` on decimal literals: skips leading
whitespace, reads an optional sign and decimal digits with an optional
fractional part, and returns NaN when no numeric prefix exists.  (Exponent
forms are not modelled; none of the verified properties depend on them.) -/
def parseFloat (s : String) : JsNum :=
  parseFloatCore (s.toList.dropWhile Char.isWhitespace)

/-- The value stored by `handleValueChange`:
the empty string maps to 0, anything else to its parseFloat reading. -/
def coerceEditedValue (newValue : String) : JsValue :=
  if newValue = "" then JsValue.numV (JsNum.num 0)
  else JsValue.numV (parseFloat newValue)

/-- `handleValueChange(index, newValue)`: copies the row array and replaces
the row at `index` by a copy whose `result_value` is the coerced input,
all other fields spread through unchanged.  (Indices come from rendering
the row list, so they are always in bounds; an out-of-bounds index leaves
the list unchanged here.) -/
def handleValueChange : List ExtractedRow → Nat → String → List ExtractedRow
  | [], _, _ => []
  | r :: rs, 0, newValue => { r with result_value := coerceEditedValue newValue } :: rs
  | r :: rs, Nat.succ n, newValue => r :: handleValueChange rs n newValue

/-! ## Shared Button component (Button.tsx) -/

/-- The two props of `Button` that determine the rendered `disabled`
attribute (an absent prop is falsy, i.e. `false` here). -/
structure ButtonProps where
  disabled : Bool := false
  isLoading : Bool := false
deriving DecidableEq

/-- The `disabled` attribute of the rendered button: `disabled || isLoading`. -/
def buttonDisabledAttr (p : ButtonProps) : Bool :=
  p.disabled || p.isLoading

/-! ## Concrete example values used by counterexamples and witnesses -/

/-- A concrete extracted row list (one glucose row). -/
def rowsEx : List ExtractedRow :=
  [{ parameter_name := "glucose"
     result_value := JsValue.numV (JsNum.num 95)
     unit := "mg/dL"
     reference_range := "70-100" }]

/-- A concrete OCR extraction result. -/
def ocrEx : OCRResult :=
  { extracted_data := rowsEx
    confidence := 9/10
    ocr_text := "glucose 95 mg/dL 70-100"
    status := "success" }

/-- A concrete lab analysis result. -/
def labResEx : LabResult :=
  { assessment := "Normal"
    confidence := 9/10
    parameters :=
      [{ name := "glucose", value := 95, unit := some "mg/dL",
         reference_range := "70-100", status := "normal", percentage := 1/2 }] }

/-- A concrete imaging analysis result. -/
def xrayResEx : XRayResult :=
  { prediction := "Normal"
    confidence := 9/10
    probabilities := [("Normal", 9/10)] }

/-- An imaging session with a file selected and a Gateway call in flight. -/
def xrayBusy : XRayState :=
  { selectedType := "chest"
    file := some "scan.png"
    preview := some "blob:scan"
    isAnalyzing := true
    result := none
    error := none }

/-- A lab session holding a previously selected file. -/
def labWithFile : LabState := { labInit with file := some "old.png" }

/-- A lab session at the results step, holding an analysis result. -/
def labDone : LabState := { labInit with step := 3, analysisResult := some labResEx }

/-! ## Claim theorems -/

/-- Claim C1, counterexample: starting from the initial lab session, a
successful `uploadFile` followed by a successful `confirmRows` leaves BOTH
the extraction result and the analysis result non-empty, so the claimed
mutual-exclusion invariant (storing one clears the other) is false. -/
theorem c1_counterexample :
    (handleReviewConfirm (handleFileUpload labInit "report.png" (Except.ok ocrEx))
        [("glucose", 95)] (Except.ok labResEx)).ocrResult = some ocrEx ∧
    (handleReviewConfirm (handleFileUpload labInit "report.png" (Except.ok ocrEx))
        [("glucose", 95)] (Except.ok labResEx)).analysisResult = some labResEx :=
  ⟨rfl, rfl⟩

/-- Claim C1 (amended): storing an AnalysisResult via
submitValues/confirmRows does NOT clear a stored ExtractionResult, and
storing an ExtractionResult via uploadFile does NOT clear a stored
AnalysisResult: after a successful upload-then-confirm sequence both are
non-empty simultaneously; only reset() clears both. -/
theorem c1_results_not_mutually_exclusive (s : LabState) (f : String)
    (ocr : OCRResult) (res : LabResult) (vals : List (String × Rat)) :
    (handleReviewConfirm (handleFileUpload s f (Except.ok ocr)) vals
        (Except.ok res)).ocrResult = some ocr ∧
    (handleReviewConfirm (handleFileUpload s f (Except.ok ocr)) vals
        (Except.ok res)).analysisResult = some res ∧
    (handleFileUpload s f (Except.ok ocr)).analysisResult = s.analysisResult ∧
    (handleManualSubmit s vals (Except.ok res)).ocrResult = s.ocrResult ∧
    (resetAnalysisLab s).ocrResult = none ∧
    (resetAnalysisLab s).analysisResult = none :=
  ⟨rfl, rfl, rfl, rfl, rfl, rfl⟩

/-- Claim C2, counterexample: a failing `uploadFile` does NOT preserve the
selected file — the catch branch sets it to null, losing both the file just
chosen and any previously held file, so the claimed preservation of all
collected state is false. -/
theorem c2_counterexample :
    labWithFile.file = some "old.png" ∧
    (handleFileUpload labWithFile "new.png" (Except.error ())).file = none :=
  ⟨rfl, rfl⟩

/-- Claim C2 (amended): when a Gateway call fails the session remains in
the current step, the error message is set, and the busy flag is cleared;
for submitValues/confirmRows failures the file, row set and results are all
preserved, but for an uploadFile failure the file slot is cleared (set to
null) while step, rows and results are preserved. -/
theorem c2_failure_keeps_step_but_upload_drops_file (s : LabState) (f : String)
    (vals : List (String × Rat)) :
    ((handleManualSubmit s vals (Except.error ())).step = s.step ∧
     (handleManualSubmit s vals (Except.error ())).file = s.file ∧
     (handleManualSubmit s vals (Except.error ())).ocrResult = s.ocrResult ∧
     (handleManualSubmit s vals (Except.error ())).analysisResult = s.analysisResult ∧
     (handleManualSubmit s vals (Except.error ())).error = some labErrorMsgAnalyze ∧
     (handleManualSubmit s vals (Except.error ())).isProcessing = false) ∧
    ((handleFileUpload s f (Except.error ())).step = s.step ∧
     (handleFileUpload s f (Except.error ())).file = none ∧
     (handleFileUpload s f (Except.error ())).ocrResult = s.ocrResult ∧
     (handleFileUpload s f (Except.error ())).analysisResult = s.analysisResult ∧
     (handleFileUpload s f (Except.error ())).error = some labErrorMsgUpload ∧
     (handleFileUpload s f (Except.error ())).isProcessing = false) :=
  ⟨⟨rfl, rfl, rfl, rfl, rfl, rfl⟩, ⟨rfl, rfl, rfl, rfl, rfl, rfl⟩⟩

/-- Claim C3, counterexample: with a file selected and the busy flag set
(a Gateway call in flight), a second `analyze()` still invokes the Gateway
— the controller body guards only on the absence of a file, so the claimed
controller-side re-entrancy rejection is false. -/
theorem c3_counterexample :
    xrayBusy.isAnalyzing = true ∧
    (handleAnalyze xrayBusy (Except.ok xrayResEx)).2 = true :=
  ⟨rfl, rfl⟩

/-- Claim C3 (amended): the controller itself does not enforce the
single-flight contract: `analyze()` invokes the Gateway exactly when a file
is selected, regardless of the busy flag; a second invocation while
Analyzing is prevented only by the UI (the Button is disabled while
loading), not by the controller. -/
theorem c3_analyze_guards_only_on_file (s : XRayState)
    (o : Except Unit XRayResult) :
    (handleAnalyze s o).2 = s.file.isSome := by
  rcases s with ⟨t, f, p, b, r, e⟩
  cases f <;> cases o <;> rfl

/-- Claim C4: `reset()` does return both flows to the initial step with
file, extraction result, analysis result and error cleared, but the claimed
release of the derived preview resource never happens: no handler in either
flow performs a `revokeObjectURL` operation (the source contains no such
call), so the object URL created by file selection is leaked rather than
released exactly once. -/
theorem c4_reset_clears_but_never_revokes (s : XRayState) (t : LabState)
    (f url : String) :
    ((resetAnalysisX s).1.file = none ∧
     (resetAnalysisX s).1.preview = none ∧
     (resetAnalysisX s).1.result = none ∧
     (resetAnalysisX s).1.error = none) ∧
    ((resetAnalysisLab t).step = 1 ∧
     (resetAnalysisLab t).file = none ∧
     (resetAnalysisLab t).ocrResult = none ∧
     (resetAnalysisLab t).analysisResult = none ∧
     (resetAnalysisLab t).error = none) ∧
    (countRevokes (resetAnalysisX s).2 = 0 ∧
     countRevokes (handleFileSelect s f url).2 = 0) :=
  ⟨⟨rfl, rfl, rfl, rfl⟩, ⟨rfl, rfl, rfl, rfl, rfl⟩, ⟨rfl, rfl⟩⟩

/-- Claim C5, counterexample: in the lab flow, uploading a new file from a
session that holds a prior AnalysisResult does NOT clear it — the stale
analysis result survives the file change, so the claim is false for the
lab flow. -/
theorem c5_counterexample :
    (handleFileUpload labDone "new.png" (Except.ok ocrEx)).analysisResult
      = some labResEx :=
  rfl

/-- Claim C5 (amended): in the imaging flow `selectFile` does clear the
prior result and error; in the lab flow `uploadFile` clears only the error
before proceeding — a previously stored AnalysisResult is never cleared by
it, and a previous ExtractionResult is only overwritten on success and kept
on failure. -/
theorem c5_select_file_clears_imaging_only (s : XRayState) (t : LabState)
    (f url : String) (o : Except Unit OCRResult) (r : OCRResult) :
    ((handleFileSelect s f url).1.result = none ∧
     (handleFileSelect s f url).1.error = none) ∧
    (handleFileUpload t f o).analysisResult = t.analysisResult ∧
    (handleFileUpload t f (Except.ok r)).ocrResult = some r ∧
    (handleFileUpload t f (Except.error ())).ocrResult = t.ocrResult := by
  refine ⟨⟨rfl, rfl⟩, ?_, rfl, rfl⟩
  cases o <;> rfl

/-- Claim C9: reset and file replacement leave the user selections
untouched in both flows — the imaging flow keeps the selected X-ray
subtype across reset and file selection, and the lab flow keeps the
selected test type and the chosen input method across reset and file
upload (either outcome). -/
theorem c9_selections_survive_reset (s : LabState) (t : XRayState)
    (f url : String) (o : Except Unit OCRResult) :
    (resetAnalysisLab s).selectedType = s.selectedType ∧
    (resetAnalysisLab s).inputMethod = s.inputMethod ∧
    (resetAnalysisX t).1.selectedType = t.selectedType ∧
    (handleFileSelect t f url).1.selectedType = t.selectedType ∧
    (handleFileUpload s f o).selectedType = s.selectedType ∧
    (handleFileUpload s f o).inputMethod = s.inputMethod := by
  refine ⟨rfl, rfl, rfl, rfl, ?_, ?_⟩ <;> cases o <;> rfl

/-- Claim C10: the shared Button renders disabled whenever isLoading is
true, whatever the disabled prop says; and this is indeed the sole guard
against re-triggering a busy imaging session, because the controller
invokes the Gateway whenever a file is present, busy or not. -/
theorem c10_button_disabled_when_loading (p : ButtonProps) (s : XRayState)
    (o : Except Unit XRayResult) :
    (p.isLoading = true → buttonDisabledAttr p = true) ∧
    (s.file.isSome = true → (handleAnalyze s o).2 = true) := by
  constructor
  · intro h
    simp [buttonDisabledAttr, h]
  · intro h
    rw [c3_analyze_guards_only_on_file]
    exact h

/-- Claim C10 witness: the implications of the Button theorem hold at a
concrete loading button and a concrete busy session with a file. -/
theorem c10_witness :
    buttonDisabledAttr { disabled := false, isLoading := true } = true ∧
    (handleAnalyze xrayBusy (Except.ok xrayResEx)).2 = true :=
  ⟨(c10_button_disabled_when_loading { disabled := false, isLoading := true }
      xrayBusy (Except.ok xrayResEx)).1 rfl,
   (c10_button_disabled_when_loading { disabled := false, isLoading := true }
      xrayBusy (Except.ok xrayResEx)).2 rfl⟩

/-! ## Sorting and row-edit helper lemmas -/

theorem mem_of_mem_insertByScoreDesc (x y : String × Rat)
    (l : List (String × Rat)) (h : x ∈ insertByScoreDesc y l) : x = y ∨ x ∈ l := by
  induction l with
  | nil =>
    rw [insertByScoreDesc] at h
    exact Or.inl (List.mem_singleton.mp h)
  | cons z zs ih =>
    rw [insertByScoreDesc] at h
    split at h
    · rcases List.mem_cons.mp h with h1 | h2
      · exact Or.inl h1
      · exact Or.inr h2
    · rcases List.mem_cons.mp h with h1 | h2
      · exact Or.inr (List.mem_cons.mpr (Or.inl h1))
      · rcases ih h2 with h3 | h4
        · exact Or.inl h3
        · exact Or.inr (List.mem_cons.mpr (Or.inr h4))

theorem mem_of_mem_sortByScoreDesc (x : String × Rat)
    (l : List (String × Rat)) (h : x ∈ sortByScoreDesc l) : x ∈ l := by
  induction l with
  | nil =>
    rw [sortByScoreDesc] at h
    exact absurd h (List.not_mem_nil x)
  | cons z zs ih =>
    rw [sortByScoreDesc] at h
    rcases mem_of_mem_insertByScoreDesc x z _ h with h1 | h2
    · exact List.mem_cons.mpr (Or.inl h1)
    · exact List.mem_cons.mpr (Or.inr (ih h2))

theorem handleValueChange_get_self : ∀ (rows : List ExtractedRow) (i : Nat)
    (s : String) (r : ExtractedRow), rows.get? i = some r →
    (handleValueChange rows i s).get? i
      = some { r with result_value := coerceEditedValue s }
  | [], _, _, _, h => Option.noConfusion h
  | a :: _, 0, s, r, h => by
    have ha : a = r := Option.some.inj h
    subst ha
    rfl
  | _ :: as, Nat.succ n, s, r, h => handleValueChange_get_self as n s r h

theorem handleValueChange_get_other : ∀ (rows : List ExtractedRow) (i j : Nat)
    (s : String), j ≠ i → (handleValueChange rows i s).get? j = rows.get? j
  | [], _, _, _, _ => rfl
  | _ :: _, 0, 0, _, hne => absurd rfl hne
  | _ :: _, 0, Nat.succ _, _, _ => rfl
  | _ :: _, Nat.succ _, 0, _, _ => rfl
  | _ :: as, Nat.succ n, Nat.succ m, s, hne =>
    handleValueChange_get_other as n m s (fun h => hne (congrArg Nat.succ h))

/-! ## Claim theorems: normalization and row editing -/

/-- An imaging result whose probability map holds an out-of-range entry. -/
def xrayResOutOfRange : XRayResult :=
  { prediction := "Edema"
    confidence := 3/2
    probabilities := [("Edema", 3/2)] }

/-- Claim C6, counterexample: the probability entry 1.5 reaches the
probability-distribution render unchanged — the rendered bar width and
label value are 150 percent, not the claimed clamped 1.0 (100 percent). -/
theorem c6_counterexample :
    sortedProbs xrayResOutOfRange = [("Edema", 3/2)] ∧
    probBarWidthPct (3/2) = 150 ∧
    probLabelPct (3/2) = 150 ∧
    ¬ ((3 : Rat)/2 ≤ 1) := by
  refine ⟨rfl, by norm_num [probBarWidthPct], by norm_num [probLabelPct], by norm_num⟩

/-- Claim C6 (amended): probability-map entries reach the distribution
render exactly as stored — every rendered entry is an unmodified entry of
the map, and an out-of-range entry yields an out-of-range rendered
percentage; the only clamping in the result view is the findings-table bar
width, capped at 100 percent. -/
theorem c6_probs_rendered_unclamped (r : XRayResult) (c : String) (p q : Rat)
    (h : (c, p) ∈ sortedProbs r) (hp : 1 < p) :
    (c, p) ∈ r.probabilities ∧
    findingBarWidthPct q ≤ 100 ∧
    100 < probLabelPct p := by
  refine ⟨?_, min_le_right _ _, ?_⟩
  · exact mem_of_mem_sortByScoreDesc _ _ (List.mem_of_mem_take h)
  · have : 100 < p * 100 := by nlinarith
    simpa [probLabelPct] using this

/-- Claim C6 witness: the amended statement evaluated on the concrete
out-of-range result. -/
theorem c6_witness :
    ("Edema", (3 : Rat)/2) ∈ xrayResOutOfRange.probabilities ∧
    findingBarWidthPct ((3 : Rat)/2) ≤ 100 ∧
    100 < probLabelPct ((3 : Rat)/2) :=
  c6_probs_rendered_unclamped xrayResOutOfRange "Edema" (3/2) (3/2)
    (List.mem_singleton.mpr rfl) (by norm_num)

/-- Claim C7: heatmap resolution — when the newer field holds a payload it
wins regardless of the legacy field; when only the legacy field holds a
payload it is used; when neither is present the result has no overlay
(`heatmapSrc` is a total function returning none, not a failure). -/
theorem c7_heatmap_resolution (r : XRayResult) :
    (∀ s, r.heatmap_b64 = some s → s ≠ "" →
      heatmapSrc r = some ("data:image/png;base64," ++ s)) ∧
    (r.heatmap_b64 = none → ∀ s, r.heatmap_base64 = some s → s ≠ "" →
      heatmapSrc r = some ("data:image/png;base64," ++ s)) ∧
    (r.heatmap_b64 = none → r.heatmap_base64 = none → heatmapSrc r = none) := by
  refine ⟨?_, ?_, ?_⟩
  · intro s hs hne
    simp [heatmapSrc, jsTruthyStr, hs, hne]
  · intro hb s hs hne
    simp [heatmapSrc, jsTruthyStr, hb, hs, hne]
  · intro hb hl
    simp [heatmapSrc, jsTruthyStr, hb, hl]

/-- An imaging result carrying both heatmap fields. -/
def xrayResBothHeatmaps : XRayResult :=
  { prediction := "Pneumonia"
    confidence := 7/10
    probabilities := []
    heatmap_b64 := some "NEWB64"
    heatmap_base64 := some "OLDB64" }

/-- An imaging result carrying only the legacy heatmap field. -/
def xrayResLegacyHeatmap : XRayResult :=
  { prediction := "Pneumonia"
    confidence := 7/10
    probabilities := []
    heatmap_base64 := some "OLDB64" }

/-- An imaging result carrying no heatmap field. -/
def xrayResNoHeatmap : XRayResult :=
  { prediction := "Pneumonia"
    confidence := 7/10
    probabilities := [] }

/-- Claim C7 witness: the three resolution branches evaluated on concrete
results (both fields, legacy only, neither). -/
theorem c7_witness :
    heatmapSrc xrayResBothHeatmaps = some ("data:image/png;base64," ++ "NEWB64") ∧
    heatmapSrc xrayResLegacyHeatmap = some ("data:image/png;base64," ++ "OLDB64") ∧
    heatmapSrc xrayResNoHeatmap = none :=
  ⟨(c7_heatmap_resolution xrayResBothHeatmaps).1 "NEWB64" rfl (by decide),
   (c7_heatmap_resolution xrayResLegacyHeatmap).2.1 rfl "OLDB64" rfl (by decide),
   (c7_heatmap_resolution xrayResNoHeatmap).2.2 rfl rfl⟩

/-- Claim C8, counterexample: editing the glucose row with the non-numeric
input "abc" stores NaN (the parseFloat result), not the claimed numeric
fallback zero. -/
theorem c8_counterexample :
    handleValueChange rowsEx 0 "abc"
      = [{ parameter_name := "glucose"
           result_value := JsValue.numV JsNum.nan
           unit := "mg/dL"
           reference_range := "70-100" }] ∧
    JsNum.nan ≠ JsNum.num 0 := by
  refine ⟨by decide, by decide⟩

/-- Claim C8 (amended): editRow replaces only the value field of the row at
an in-bounds index — name, unit and reference of that row and all other
rows are unchanged; a blank input is coerced to zero before storage, while
a non-blank input is stored as its parseFloat reading, which is NaN (not
zero) when the input has no numeric prefix. -/
theorem c8_edit_row (rows : List ExtractedRow) (i : Nat) (s : String)
    (r : ExtractedRow) (h : rows.get? i = some r) :
    ((handleValueChange rows i s).get? i
        = some { r with result_value := coerceEditedValue s }) ∧
    (∀ j, j ≠ i → (handleValueChange rows i s).get? j = rows.get? j) ∧
    (s = "" → coerceEditedValue s = JsValue.numV (JsNum.num 0)) ∧
    (s ≠ "" → coerceEditedValue s = JsValue.numV (parseFloat s)) := by
  refine ⟨handleValueChange_get_self rows i s r h,
          fun j hj => handleValueChange_get_other rows i j s hj, ?_, ?_⟩
  · intro hs
    simp [coerceEditedValue, hs]
  · intro hs
    simp [coerceEditedValue, hs]

/-- Claim C8 witness: the amended row-edit contract evaluated on the
concrete glucose row with a blank edit. -/
theorem c8_witness :
    ((handleValueChange rowsEx 0 "").get? 0
        = some { parameter_name := "glucose"
                 result_value := coerceEditedValue ""
                 unit := "mg/dL"
                 reference_range := "70-100" }) ∧
    (handleValueChange rowsEx 0 "").get? 1 = rowsEx.get? 1 ∧
    coerceEditedValue "" = JsValue.numV (JsNum.num 0) :=
  ⟨(c8_edit_row rowsEx 0 ""
      { parameter_name := "glucose"
        result_value := JsValue.numV (JsNum.num 95)
        unit := "mg/dL"
        reference_range := "70-100" } rfl).1,
   (c8_edit_row rowsEx 0 ""
      { parameter_name := "glucose"
        result_value := JsValue.numV (JsNum.num 95)
        unit := "mg/dL"
        reference_range := "70-100" } rfl).2.1 1 (by decide),
   (c8_edit_row rowsEx 0 ""
      { parameter_name := "glucose"
        result_value := JsValue.numV (JsNum.num 95)
        unit := "mg/dL"
        reference_range := "70-100" } rfl).2.2.1 rfl⟩
